import Mathlib

/-!
Shallow embedding of the two scripts of `szurubooru-toolkit`
(`scripts/tag_posts.py` and `scripts/import_from_url.py`) and proofs about
the tag-normalization and tag-pipeline behaviour they implement.

Conventions of the embedding:
* Python strings are `String`, Python lists are `List`.
* A Python variable that may be `None` is an `Option`.
* Python code that can raise an uncaught exception is embedded in
  `Except String`, the error string naming the Python exception.
* External collaborators (the danbooru artist search, the szurubooru
  tag-lookup API) are parameters of the embedded functions.
-/

namespace TagPosts

/-- Embedding of `list(set().union(post.tags, add_tags))`
(`tag_posts.py`, line 148).  A Python `set` enumerates its elements in an
unspecified order; the embedding fixes one concrete enumeration (first
occurrences of `tags ++ add_tags`), which is irrelevant to the set-level
properties proved below. -/
def pyUnion (tags add_tags : List String) : List String :=
  (tags ++ add_tags).dedup

/-- Embedding of the mode branch of the per-post loop body
(`tag_posts.py`, lines 146-151).  `mode` is the raw `--mode` string
(argparse restricts it to `append` or `overwrite`); the inner guards are
Python truthiness of `add_tags` (an empty list is falsy). -/
def apply_mode (mode : String) (add_tags tags : List String) : List String :=
  if mode = "append" then
    if add_tags.isEmpty then tags else pyUnion tags add_tags
  else if mode = "overwrite" then
    if add_tags.isEmpty then tags else add_tags
  else tags

/-- Embedding of the removal branch (`tag_posts.py`, lines 153-154):
`remove_tags` is `None` when the flag was absent (Python falsy), otherwise
the comma-split list; an empty list is falsy as well, so both skip the
filter. -/
def apply_removal (remove_tags : Option (List String)) (tags : List String) : List String :=
  match remove_tags with
  | none => tags
  | some r =>
    if r.isEmpty then tags
    else tags.filter (fun tag => decide (¬ tag ∈ r))

/-- The add/remove part of the per-post loop body (`tag_posts.py`,
lines 146-154): the mode branch followed by the removal branch. -/
def tag_step (mode : String) (add_tags : List String) (remove_tags : Option (List String))
    (tags : List String) : List String :=
  apply_removal remove_tags (apply_mode mode add_tags tags)

/-- The list of tags an `Option` removal argument denotes (`None` behaves
as the empty removal list). -/
def remove_list : Option (List String) → List String
  | none => []
  | some r => r

/-- A tag resource returned by the szurubooru tag lookup
(`szuru.api.getTag`): a structured object carrying at least a primary name
and an implication list, as witnessed by the accesses
`szuru_tag.implications` and `szuru_implication.primary_name` in
`tag_posts.py`, lines 160-163. -/
structure SzuruTag where
  primary_name : String
  implications : List String
deriving DecidableEq

/-- Embedding of the Python test `szuru_implication not in post.tags`
(`tag_posts.py`, line 162) without the `not`: the left operand is the tag
object returned by `szuru.api.getTag`, the right operand a list of plain
strings.  `pyszuru`'s resource objects do not define value equality with
`str`, so under Python's default object equality no element of the list
compares equal to the object and the membership test is false for every
element. -/
def tag_in_str_list (_t : SzuruTag) (tags : List String) : Bool :=
  tags.any (fun _s => false)

/-- One pass of the inner implication loop (`tag_posts.py`, lines
160-163) over the implication list of the tag currently being visited:
for each implication, look its tag object up and append its primary name
unless the (object-level) membership test reports it present. -/
def implication_pass (getTag : String → SzuruTag) (tags : List String)
    (implications : List String) : List String :=
  implications.foldl
    (fun acc implication =>
      let szuru_implication := getTag implication
      if tag_in_str_list szuru_implication acc then acc
      else acc ++ [szuru_implication.primary_name])
    tags

/-- Embedding of the outer implication loop (`tag_posts.py`, lines
158-163).  CPython's list iterator is index based, so elements appended
during the loop are visited too; the embedding makes the index explicit
and uses fuel because the Python loop need not terminate (`none` = the
loop has not finished within `fuel` iterations). -/
def update_implications_loop (getTag : String → SzuruTag) :
    Nat → Nat → List String → Option (List String)
  | 0, _, _ => none
  | fuel + 1, i, tags =>
    if h : i < tags.length then
      let szuru_tag := getTag (tags.get ⟨i, h⟩)
      update_implications_loop getTag fuel (i + 1) (implication_pass getTag tags szuru_tag.implications)
    else some tags

/-- A concrete szurubooru tag service for evaluation: the tag `a` implies
`b`; every other tag has no implications; every tag's primary name is the
name it is looked up under. -/
def getTag_ex (s : String) : SzuruTag :=
  if s = "a" then ⟨"a", ["b"]⟩ else ⟨s, []⟩

end TagPosts

namespace PyStr

/-!
Character-level implementations of the Python string primitives the
scripts use.  They are structurally recursive so that concrete instances
evaluate inside the kernel; each carries the Python semantics it embeds.
-/

/-- Python `str.split(sep)` for a one-character separator, on the
character list: every occurrence of the separator ends a piece, so `n`
separators yield `n + 1` (possibly empty) pieces. -/
def splitChar (sep : Char) : List Char → List (List Char)
  | [] => [[]]
  | c :: cs =>
    let r := splitChar sep cs
    if c = sep then [] :: r
    else
      match r with
      | [] => [[c]]
      | h :: t => (c :: h) :: t

/-- Joining with a one-character separator, the inverse of `splitChar`:
embeds Python `sep.join(pieces)`. -/
def joinChar (sep : Char) : List (List Char) → List Char
  | [] => []
  | [x] => x
  | x :: y :: t => x ++ sep :: joinChar sep (y :: t)

/-- Python `str.startswith(pat)` on character lists. -/
def starts_with_chars : List Char → List Char → Bool
  | [], _ => true
  | _ :: _, [] => false
  | p :: ps, c :: cs => p = c && starts_with_chars ps cs

/-- Python substring containment `pat in s` on character lists. -/
def has_sub (pat : List Char) : List Char → Bool
  | [] => pat.isEmpty
  | c :: cs => starts_with_chars pat (c :: cs) || has_sub pat cs

/-- Python `str.replace(a, b)` for one-character `a` and `b`: a
character-wise map. -/
def replace_char (a b : Char) (l : List Char) : List Char :=
  l.map (fun c => if c = a then b else c)

/-- Python `str.replace(a, '')` for a one-character `a`: deletion of
every occurrence. -/
def remove_char (a : Char) (l : List Char) : List Char :=
  l.filter (fun c => decide (¬ c = a))

/-- Accumulator pass of `py_split_ws`: Python `str.split()` with no
argument splits on maximal whitespace runs and never yields empty
pieces. -/
def split_ws_aux : List Char → List Char → List (List Char)
  | [], acc => if acc.isEmpty then [] else [acc.reverse]
  | c :: cs, acc =>
    if c.isWhitespace then
      if acc.isEmpty then split_ws_aux cs []
      else acc.reverse :: split_ws_aux cs []
    else split_ws_aux cs (c :: acc)

/-- Python `str.split()` with no argument, on a `String`. -/
def py_split_ws (s : String) : List String :=
  (split_ws_aux s.data []).map String.mk

/-- Python `str.split(sep)` for a one-character separator, on a
`String`. -/
def py_split_on (sep : Char) (s : String) : List String :=
  (splitChar sep s.data).map String.mk

/-- Python `str.lower()` (character-wise; the scripts only lower-case
ASCII artist names). -/
def py_lower (s : String) : String :=
  String.mk (s.data.map Char.toLower)

/-- Python `pat in s` substring containment on `String`. -/
def py_contains_sub (pat s : String) : Bool :=
  has_sub pat.data s.data

/-- Python `str.startswith(pat)` on `String`. -/
def py_starts_with (pat s : String) : Bool :=
  starts_with_chars pat.data s.data

end PyStr

namespace ImportFromUrl

open PyStr

/-- Result of `parse_args` in `import_from_url.py`: either the parsed
tuple, or the path of lines 64-66 that prints the argparse usage text and
terminates the process with the given exit status. -/
inductive ParseResult where
  | ok (range : String) (urls : List String) (input_file : Option String)
      (cookies : Option String) (verbose : Bool)
  | usage_exit (status : Nat)
deriving DecidableEq

/-- Python truthiness of an optional string argument: `None` and the
empty string are falsy. -/
def str_falsy : Option String → Bool
  | none => true
  | some s => s = ""

/-- Embedding of the tail of `parse_args` (`import_from_url.py`, lines
62-68): once argparse has produced the argument values, either print the
help text and exit with status 1 (when both `urls` and `input_file` are
falsy) or return the tuple. -/
def parse_args_model (range : String) (urls : List String) (input_file : Option String)
    (cookies : Option String) (verbose : Bool) : ParseResult :=
  if urls.isEmpty ∧ str_falsy input_file then ParseResult.usage_exit 1
  else ParseResult.ok range urls input_file cookies verbose

/-- Embedding of `pathlib.PurePath.suffix` as used on the downloaded file
names (`import_from_url.py`, line 198): the extension of the final path
component, i.e. the part of the name from its last dot on, unless the
name has no dot, the only dot is the leading character, or the name ends
in a dot — in which cases the suffix is empty. -/
def path_suffix (file : String) : String :=
  let name := ((py_split_on '/' file).getLastD "")
  let parts := py_split_on '.' name
  match parts with
  | [] => ""
  | [_] => ""
  | _ =>
    let last := parts.getLastD ""
    let first := parts.headD ""
    if last = "" then ""
    else if first = "" ∧ parts.length = 2 then ""
    else "." ++ last

/-- Embedding of the file filter (`import_from_url.py`, lines 197-199):
every file of the download directory whose suffix is not `.psd` and not
`.json` is kept for upload. -/
def uploaded_files (files : List String) : List String :=
  files.filter (fun file => decide (¬ path_suffix file ∈ ([".psd", ".json"] : List String)))

/-- The dynamic type of the `tags` entry of a sidecar metadata record:
gallery-dl writes either a JSON list of strings or a single
space-delimited string, and the two branches of `set_tags` treat the two
shapes differently. -/
inductive PyTags where
  | pstr (s : String)
  | plist (l : List String)
deriving DecidableEq

/-- The slice of a sidecar metadata record that `set_tags` and the tag
assignment of `main` read and write.  `none` in an `Option` field means
the key is absent from the record (access raises `KeyError`);
`user_name` is the `metadata['user']['name']` chain, `none` when either
key is missing (the code catches that `KeyError`). -/
structure Metadata where
  site : String
  tags : Option PyTags
  tag_string : Option String
  user_name : Option String
  safety : String
deriving DecidableEq

/-- Python `str.split()` with no separator (`import_from_url.py`, lines
102 and 105): split on whitespace runs, discarding empty pieces. -/
def pySplit (s : String) : List String :=
  py_split_ws s

/-- Embedding of `index = tag.find(':')` followed by the slice
`tag[index + 1:]` (`import_from_url.py`, lines 78-80): `none` when the
tag has no colon (`find` returned -1), otherwise everything after the
first colon. -/
def find_colon_slice (tag : String) : Option String :=
  match splitChar ':' tag.data with
  | [] => none
  | [_] => none
  | _ :: rest => some (String.mk (joinChar ':' rest))

/-- One iteration of the e-hentai artist loop (`import_from_url.py`,
lines 76-81): a tag starting with `artist` and containing a colon
overwrites the artist accumulator with the part after the first colon,
spaces replaced by underscores. -/
def e_hentai_artist_step (artist tag : String) : String :=
  if py_starts_with "artist" tag then
    match find_colon_slice tag with
    | some a => String.mk (replace_char ' ' '_' a.data)
    | none => artist
  else artist

/-- The whole e-hentai artist loop over the raw tag list, starting from
the empty accumulator of line 72. -/
def e_hentai_artist (tags : List String) : String :=
  tags.foldl e_hentai_artist_step ""

/-- Embedding of the artist-extraction phase of the first `set_tags`
branch (`import_from_url.py`, lines 72-86).  For e-hentai the raw `tags`
entry is iterated: a missing key raises `KeyError`, a string value is
iterated character by character (no single character starts with
`artist`, so the accumulator stays empty).  For fanbox/pixiv the
`metadata['user']['name']` chain is read with `KeyError` caught, leaving
the accumulator empty. -/
def extract_artist (m : Metadata) : Except String String :=
  if m.site = "e-hentai" then
    match m.tags with
    | none => Except.error "KeyError: tags"
    | some (PyTags.pstr s) => Except.ok (e_hentai_artist (s.data.map (fun c => String.mk [c])))
    | some (PyTags.plist l) => Except.ok (e_hentai_artist l)
  else Except.ok (m.user_name.getD "")

/-- Embedding of the `R-18` block (`import_from_url.py`, lines 87-89).
Membership `'R-18' in metadata['tags']` is a `KeyError` on a missing key,
substring containment on a string value and list membership on a list;
`list.remove` deletes the first occurrence only, and calling `.remove`
on a string raises `AttributeError`. -/
def r18_step (m : Metadata) : Except String Metadata :=
  match m.tags with
  | none => Except.error "KeyError: tags"
  | some (PyTags.pstr s) =>
    if py_contains_sub "R-18" s then Except.error "AttributeError: str.remove"
    else Except.ok m
  | some (PyTags.plist l) =>
    if "R-18" ∈ l then
      Except.ok { m with tags := some (PyTags.plist (l.erase "R-18")), safety := "unsafe" }
    else Except.ok m

/-- The locally sanitized artist variant of `import_from_url.py`, lines
92-94: lower-cased, spaces replaced by underscores, the stray full-width
space U+3000 stripped. -/
def sanitize_artist (artist : String) : String :=
  String.mk (remove_char '　' (replace_char ' ' '_' (py_lower artist).data))

/-- Embedding of the canonical-name resolution (`import_from_url.py`,
lines 91-98): the primary `danbooru_client.search_artist` lookup on the
extracted artist, a retry on the sanitized variant when the first result
is falsy, and the local fallback `artist.replace(' ', '_')` when both are
falsy.  The external search is a parameter; `none` models a falsy
result. -/
def resolve_artist (search_artist : String → Option String) (artist : String) : String :=
  match search_artist artist with
  | some c => c
  | none =>
    match search_artist (sanitize_artist artist) with
    | some c => c
    | none => String.mk (replace_char ' ' '_' artist.data)

/-- Embedding of the artist append (`import_from_url.py`, lines 90-98):
skipped when the artist accumulator is falsy (empty); appending to a
string value raises `AttributeError`, to a missing key `KeyError`. -/
def append_artist (search_artist : String → Option String) (artist : String)
    (m : Metadata) : Except String Metadata :=
  if artist = "" then Except.ok m
  else
    match m.tags with
    | none => Except.error "KeyError: tags"
    | some (PyTags.pstr _) => Except.error "AttributeError: str.append"
    | some (PyTags.plist l) =>
      Except.ok { m with tags := some (PyTags.plist (l ++ [resolve_artist search_artist artist])) }

/-- The first branch of the `match` in `set_tags`
(`import_from_url.py`, lines 74-98), for sites fanbox, e-hentai and
pixiv: artist extraction, then the `R-18` block, then the artist
append. -/
def special_branch (search_artist : String → Option String) (m : Metadata) :
    Except String Metadata :=
  match extract_artist m with
  | Except.error e => Except.error e
  | Except.ok artist =>
    match r18_step m with
    | Except.error e => Except.error e
    | Except.ok m1 => append_artist search_artist artist m1

/-- The default branch of the `match` in `set_tags`
(`import_from_url.py`, lines 99-105): a string `tags` entry is split on
whitespace; a list entry is left alone; when the `tags` key is missing
the handler reads `tag_string`, whose absence raises an uncaught
`KeyError`. -/
def default_branch (m : Metadata) : Except String Metadata :=
  match m.tags with
  | some (PyTags.pstr s) => Except.ok { m with tags := some (PyTags.plist (pySplit s)) }
  | some (PyTags.plist l) => Except.ok { m with tags := some (PyTags.plist l) }
  | none =>
    match m.tag_string with
    | some s => Except.ok { m with tags := some (PyTags.plist (pySplit s)) }
    | none => Except.error "KeyError: tag_string"

/-- Modelled from the spec: `check_tags` (imported from
`szurubooru_toolkit.utils`, whose source is not part of this checkout) is
"an external consistency check (deduplication/validation)" applied to the
tag list before `set_tags` returns; it is modelled as deduplication of
the list. -/
def check_tags (tags : List String) : List String :=
  tags.dedup

/-- Embedding of `set_tags` (`import_from_url.py`, lines 71-107): branch
on the origin site, then return the metadata as mutated together with
`check_tags` of its final tag list.  A final `tags` value that is still a
plain string only arises on site/shape combinations outside the modelled
domain of the spec's `check_tags` (a tag list) and is reported as an
error. -/
def set_tags (search_artist : String → Option String) (m : Metadata) :
    Except String (Metadata × List String) :=
  match
    (if m.site = "fanbox" ∨ m.site = "e-hentai" ∨ m.site = "pixiv" then
      special_branch search_artist m
    else default_branch m) with
  | Except.error e => Except.error e
  | Except.ok m1 =>
    match m1.tags with
    | some (PyTags.plist l) => Except.ok (m1, check_tags l)
    | _ => Except.error "check_tags: tags is not a list"

/-- Embedding of the tag assignment in `main` (`import_from_url.py`,
lines 222-227): call `set_tags` when the record has a `tags` or
`tag_string` key, fall back to the twitter artist extraction for twitter,
and otherwise assign the empty list.  The twitter extraction is an
external collaborator, passed as the value it would return. -/
def main_assign_tags (search_artist : String → Option String) (m : Metadata)
    (twitter_tags : List String) : Except String (List String) :=
  if m.tags.isSome ∨ m.tag_string.isSome then
    match set_tags search_artist m with
    | Except.error e => Except.error e
    | Except.ok r => Except.ok r.2
  else if m.site = "twitter" then Except.ok twitter_tags
  else Except.ok []

end ImportFromUrl

open TagPosts ImportFromUrl PyStr

/-- C1: with implication update enabled, an implied tag that is already
present on the post is supposed not to be appended again.  In the code
the guard `szuru_implication not in post.tags` compares the tag object
returned by `szuru.api.getTag` with a list of strings, so it never holds
and the implication's primary name is appended unconditionally.  On a
post with tags `a, b` where `a` implies `b`, the loop finishes with tag
list `a, b, b`: the implied tag `b` ends up twice. -/
theorem claim_C1_duplicate_implication_append :
    (getTag_ex "a").implications = ["b"] ∧
      "b" ∈ (["a", "b"] : List String) ∧
      update_implications_loop getTag_ex 10 0 ["a", "b"] = some ["a", "b", "b"] ∧
      (["a", "b", "b"] : List String).count "b" = 2 := by
  decide

/-- C4: in overwrite mode with additions `x, y` and no removal list, the
resulting tag set of every post is exactly `{x, y}`, whatever the prior
tags were. -/
theorem claim_C4_overwrite_exact (prior : List String) :
    (tag_step "overwrite" ["x", "y"] none prior).toFinset = ({"x", "y"} : Finset String) :=
  rfl

/-- C5: in append mode the resulting tag set is the union of the prior
tags and the additions, minus every tag of the removal list (an absent or
empty removal list removes nothing). -/
theorem claim_C5_append_union_minus_removal (prior adds : List String)
    (rem : Option (List String)) :
    (tag_step "append" adds rem prior).toFinset
      = (prior.toFinset ∪ adds.toFinset) \ (remove_list rem).toFinset := by
  ext a
  cases rem with
  | none =>
    cases adds with
    | nil => simp [tag_step, apply_mode, apply_removal, remove_list]
    | cons b bs =>
      simp [tag_step, apply_mode, apply_removal, remove_list, pyUnion]
      tauto
  | some r =>
    cases r with
    | nil =>
      cases adds with
      | nil => simp [tag_step, apply_mode, apply_removal, remove_list]
      | cons b bs =>
        simp [tag_step, apply_mode, apply_removal, remove_list, pyUnion]
        tauto
    | cons r0 rs =>
      cases adds with
      | nil =>
        simp [tag_step, apply_mode, apply_removal, remove_list, List.mem_filter, and_comm]
      | cons b bs =>
        simp [tag_step, apply_mode, apply_removal, remove_list, pyUnion, List.mem_filter,
          and_comm]
        tauto

/-- C9: in overwrite mode with an empty additions list the overwrite
step leaves the post's tags unchanged; tags are replaced only when at
least one addition is present. -/
theorem claim_C9_overwrite_keeps_tags (prior : List String) :
    apply_mode "overwrite" [] prior = prior ∧
      ∀ adds : List String, adds ≠ [] → apply_mode "overwrite" adds prior = adds := by
  refine ⟨rfl, ?_⟩
  intro adds h
  cases adds with
  | nil => exact absurd rfl h
  | cons b bs => rfl

/-- Witness for C9 at concrete inputs. -/
theorem claim_C9_overwrite_keeps_tags_witness :
    apply_mode "overwrite" [] ["old"] = ["old"] ∧
      apply_mode "overwrite" ["x"] ["old"] = ["x"] :=
  ⟨(claim_C9_overwrite_keeps_tags ["old"]).1,
    (claim_C9_overwrite_keeps_tags ["old"]).2 ["x"] (by decide)⟩

/-- C10: a tag appearing in both the additions and the removal list is
absent from the final tag list in both modes, because the removal filter
runs after the mode branch. -/
theorem claim_C10_removal_wins (mode : String) (prior adds rem : List String) (t : String)
    (_hmode : mode = "append" ∨ mode = "overwrite")
    (_hadd : t ∈ adds) (hrem : t ∈ rem) :
    ¬ t ∈ tag_step mode adds (some rem) prior := by
  have hne : rem.isEmpty = false := by
    cases rem with
    | nil => cases hrem
    | cons r0 rs => rfl
  intro hmem
  simp only [tag_step, apply_removal, hne, Bool.false_eq_true, if_false, List.mem_filter,
    decide_eq_true_eq] at hmem
  exact hmem.2 hrem

/-- Witness for C10 at concrete inputs. -/
theorem claim_C10_removal_wins_witness :
    ¬ "x" ∈ tag_step "append" ["x"] (some ["x", "y"]) ["p"] :=
  claim_C10_removal_wins "append" ["p"] ["x"] ["x", "y"] "x" (Or.inl rfl) (by decide) (by decide)

/-- C8: when neither positional URLs nor an input file are supplied,
the import pipeline's argument parser prints the usage text and exits
with status 1. -/
theorem claim_C8_usage_exit (range : String) (cookies : Option String) (verbose : Bool)
    (urls : List String) (input_file : Option String)
    (hurls : urls = []) (hin : input_file = none) :
    parse_args_model range urls input_file cookies verbose = ParseResult.usage_exit 1 := by
  subst hurls
  subst hin
  rfl

/-- Witness for C8 at the argparse defaults. -/
theorem claim_C8_usage_exit_witness :
    parse_args_model ":10000" [] none none false = ParseResult.usage_exit 1 :=
  claim_C8_usage_exit ":10000" none false [] none rfl rfl

/-- C7 fails as stated: the upload filter excludes `.psd` files as well,
not only the `.json` metadata sidecars.  A downloaded `artwork.psd` is
not a JSON sidecar, yet it is dropped from the upload list. -/
theorem claim_C7_counterexample :
    uploaded_files ["1728739200/artwork.psd"] = [] ∧
      path_suffix "1728739200/artwork.psd" = ".psd" ∧
      (".psd" : String) ≠ ".json" := by
  refine ⟨rfl, rfl, by decide⟩

/-- C7 amended: a produced file is handed to the upload step exactly when
its suffix is neither `.psd` nor `.json`; both file types, and no
others, are excluded. -/
theorem claim_C7_amended (files : List String) (f : String) :
    f ∈ uploaded_files files
      ↔ f ∈ files ∧ path_suffix f ≠ ".psd" ∧ path_suffix f ≠ ".json" := by
  simp [uploaded_files, List.mem_filter, not_or]

/-- C2 fails as stated: for an e-hentai record with raw tag
`artist:John Doe` and both external lookups returning nothing, the value
actually appended is `artist.replace(' ', '_')` where `artist` is already
`John_Doe` — case preserved — so the final tag list holds `John_Doe` and
not the lower-cased sanitized form `john_doe` the claim names. -/
theorem claim_C2_counterexample :
    set_tags (fun _ => none)
        ⟨"e-hentai", some (PyTags.plist ["artist:John Doe"]), none, none, "safe"⟩
      = Except.ok
          (⟨"e-hentai", some (PyTags.plist ["artist:John Doe", "John_Doe"]), none, none, "safe"⟩,
            ["artist:John Doe", "John_Doe"]) ∧
      ¬ "john_doe" ∈ (["artist:John Doe", "John_Doe"] : List String) :=
  ⟨rfl, by decide⟩

/-- C2 amended: the artist extracted from `artist:John Doe` before any
replacement is `John Doe`; the sanitized variant `john_doe` is computed
and used as the retry lookup key; but when both lookups fail the tag
appended is the case-preserving `John_Doe` (spaces replaced by
underscores only). -/
theorem claim_C2_amended (sa : String → Option String)
    (h1 : sa "John_Doe" = none) (h2 : sa "john_doe" = none) :
    find_colon_slice "artist:John Doe" = some "John Doe" ∧
      sanitize_artist "John_Doe" = "john_doe" ∧
      set_tags sa ⟨"e-hentai", some (PyTags.plist ["artist:John Doe"]), none, none, "safe"⟩
        = Except.ok
            (⟨"e-hentai", some (PyTags.plist ["artist:John Doe", "John_Doe"]), none, none,
                "safe"⟩,
              ["artist:John Doe", "John_Doe"]) := by
  refine ⟨rfl, rfl, ?_⟩
  have hres : resolve_artist sa "John_Doe" = "John_Doe" := by
    unfold resolve_artist
    rw [h1, show sanitize_artist "John_Doe" = "john_doe" from rfl, h2]
    rfl
  have hstep :
      set_tags sa ⟨"e-hentai", some (PyTags.plist ["artist:John Doe"]), none, none, "safe"⟩
        = Except.ok
            (⟨"e-hentai",
                some (PyTags.plist (["artist:John Doe"] ++ [resolve_artist sa "John_Doe"])),
                none, none, "safe"⟩,
              check_tags (["artist:John Doe"] ++ [resolve_artist sa "John_Doe"])) := rfl
  rw [hstep, hres]
  rfl

/-- Witness for C2 with both lookups constantly empty. -/
theorem claim_C2_amended_witness :
    find_colon_slice "artist:John Doe" = some "John Doe" ∧
      sanitize_artist "John_Doe" = "john_doe" ∧
      set_tags (fun _ => none)
          ⟨"e-hentai", some (PyTags.plist ["artist:John Doe"]), none, none, "safe"⟩
        = Except.ok
            (⟨"e-hentai", some (PyTags.plist ["artist:John Doe", "John_Doe"]), none, none,
                "safe"⟩,
              ["artist:John Doe", "John_Doe"]) :=
  claim_C2_amended (fun _ => none) rfl rfl

/-- C3 fails in its error-handling half: when neither `tags` nor
`tag_string` is present, `set_tags` itself raises — the `KeyError` on
`metadata['tags']` is handled by reading `metadata['tag_string']`, whose
absence raises an uncaught `KeyError` — instead of returning an empty
list. -/
theorem claim_C3_counterexample :
    set_tags (fun _ => none) ⟨"danbooru", none, none, none, "safe"⟩
        = Except.error "KeyError: tag_string" ∧
      (Except.error "KeyError: tag_string"
          : Except String (Metadata × List String))
        ≠ Except.ok (⟨"danbooru", none, none, none, "safe"⟩, []) := by
  refine ⟨rfl, ?_⟩
  intro h
  cases h

/-- C3 amended: for a non-fanbox/e-hentai/pixiv origin, a space-delimited
string under `tags` (or, failing that, under `tag_string`) is split into
the word list; when neither field is present `set_tags` raises a
`KeyError`, and the non-fatal empty tag list comes from the caller
`main`, which only invokes `set_tags` when one of the two keys exists and
otherwise (for a non-twitter site) assigns `[]` itself. -/
theorem claim_C3_amended (sa : String → Option String) (site : String) (un : Option String)
    (sf : String) (tw : List String)
    (h1 : site ≠ "fanbox") (h2 : site ≠ "e-hentai") (h3 : site ≠ "pixiv")
    (h4 : site ≠ "twitter") :
    set_tags sa ⟨site, some (PyTags.pstr "a b c"), none, un, sf⟩
        = Except.ok (⟨site, some (PyTags.plist ["a", "b", "c"]), none, un, sf⟩,
            ["a", "b", "c"]) ∧
      set_tags sa ⟨site, none, some "a b c", un, sf⟩
        = Except.ok (⟨site, some (PyTags.plist ["a", "b", "c"]), some "a b c", un, sf⟩,
            ["a", "b", "c"]) ∧
      set_tags sa ⟨site, none, none, un, sf⟩ = Except.error "KeyError: tag_string" ∧
      main_assign_tags sa ⟨site, none, none, un, sf⟩ tw = Except.ok [] := by
  have hsplit : pySplit "a b c" = ["a", "b", "c"] := rfl
  refine ⟨?_, ?_, ?_, ?_⟩
  · simp [set_tags, default_branch, h1, h2, h3, hsplit]
    rfl
  · simp [set_tags, default_branch, h1, h2, h3, hsplit]
    rfl
  · simp [set_tags, default_branch, h1, h2, h3]
  · simp [main_assign_tags, h4]

/-- Witness for C3 with a danbooru record. -/
theorem claim_C3_amended_witness :
    set_tags (fun _ => none) ⟨"danbooru", some (PyTags.pstr "a b c"), none, none, "safe"⟩
        = Except.ok (⟨"danbooru", some (PyTags.plist ["a", "b", "c"]), none, none, "safe"⟩,
            ["a", "b", "c"]) ∧
      set_tags (fun _ => none) ⟨"danbooru", none, some "a b c", none, "safe"⟩
        = Except.ok (⟨"danbooru", some (PyTags.plist ["a", "b", "c"]), some "a b c", none,
              "safe"⟩,
            ["a", "b", "c"]) ∧
      set_tags (fun _ => none) ⟨"danbooru", none, none, none, "safe"⟩
        = Except.error "KeyError: tag_string" ∧
      main_assign_tags (fun _ => none) ⟨"danbooru", none, none, none, "safe"⟩ []
        = Except.ok [] :=
  claim_C3_amended (fun _ => none) "danbooru" none "safe" []
    (by decide) (by decide) (by decide) (by decide)

/-- C6 fails as stated: `metadata['tags'].remove('R-18')` deletes only
the first occurrence, so a record whose tag list holds `R-18` twice gets
safety `unsafe` but keeps an `R-18` in the returned list. -/
theorem claim_C6_counterexample :
    set_tags (fun _ => none)
        ⟨"pixiv", some (PyTags.plist ["R-18", "R-18"]), none, none, "safe"⟩
      = Except.ok (⟨"pixiv", some (PyTags.plist ["R-18"]), none, none, "unsafe"⟩, ["R-18"]) ∧
      "R-18" ∈ (["R-18"] : List String) :=
  ⟨rfl, by decide⟩

/-- C6 amended: for a fanbox/e-hentai/pixiv record containing `R-18` the
normalizer sets safety to `unsafe` and removes one occurrence of the
token; the returned list is free of `R-18` provided the token occurred
exactly once and the artist-resolution step does not itself append the
name `R-18`. -/
theorem claim_C6_amended (sa : String → Option String) (site : String) (l : List String)
    (tstr un : Option String) (sf : String)
    (hsite : site = "fanbox" ∨ site = "e-hentai" ∨ site = "pixiv")
    (hcount : l.count "R-18" = 1)
    (hartist : ∀ a, extract_artist ⟨site, some (PyTags.plist l), tstr, un, sf⟩ = Except.ok a →
        a ≠ "" → resolve_artist sa a ≠ "R-18") :
    ∃ m1 ts, set_tags sa ⟨site, some (PyTags.plist l), tstr, un, sf⟩ = Except.ok (m1, ts) ∧
      m1.safety = "unsafe" ∧ ¬ "R-18" ∈ ts := by
  have hmem : "R-18" ∈ l := by
    by_contra h
    rw [List.count_eq_zero.mpr h] at hcount
    cases hcount
  have hnot : ¬ "R-18" ∈ l.erase "R-18" := by
    rw [← List.count_eq_zero, List.count_erase_self, hcount]
  obtain ⟨a, ha⟩ :
      ∃ a, extract_artist ⟨site, some (PyTags.plist l), tstr, un, sf⟩ = Except.ok a := by
    rcases hsite with h | h | h <;> subst h <;> exact ⟨_, rfl⟩
  have hr : r18_step ⟨site, some (PyTags.plist l), tstr, un, sf⟩
      = Except.ok ⟨site, some (PyTags.plist (l.erase "R-18")), tstr, un, "unsafe"⟩ := by
    show (if "R-18" ∈ l then
        Except.ok (⟨site, some (PyTags.plist (l.erase "R-18")), tstr, un, "unsafe"⟩ : Metadata)
      else Except.ok ⟨site, some (PyTags.plist l), tstr, un, sf⟩) = _
    rw [if_pos hmem]
  have hsb : special_branch sa ⟨site, some (PyTags.plist l), tstr, un, sf⟩
      = append_artist sa a ⟨site, some (PyTags.plist (l.erase "R-18")), tstr, un, "unsafe"⟩ := by
    unfold special_branch
    rw [ha, hr]
  by_cases hae : a = ""
  · refine ⟨⟨site, some (PyTags.plist (l.erase "R-18")), tstr, un, "unsafe"⟩,
      check_tags (l.erase "R-18"), ?_, rfl, ?_⟩
    · unfold set_tags
      rw [if_pos hsite, hsb]
      unfold append_artist
      rw [if_pos hae]
    · simp [check_tags, List.mem_dedup, hnot]
  · refine ⟨⟨site, some (PyTags.plist (l.erase "R-18" ++ [resolve_artist sa a])), tstr, un,
      "unsafe"⟩, check_tags (l.erase "R-18" ++ [resolve_artist sa a]), ?_, rfl, ?_⟩
    · unfold set_tags
      rw [if_pos hsite, hsb]
      unfold append_artist
      rw [if_neg hae]
    · have hra : resolve_artist sa a ≠ "R-18" := hartist a ha hae
      simp [check_tags, List.mem_dedup, List.mem_append, hnot]
      intro h
      exact hra h.symm

/-- Witness for C6 on a pixiv record with a single `R-18` and no artist
information. -/
theorem claim_C6_amended_witness :
    ∃ m1 ts,
      set_tags (fun _ => none)
          ⟨"pixiv", some (PyTags.plist ["R-18", "foo"]), none, none, "safe"⟩
        = Except.ok (m1, ts) ∧ m1.safety = "unsafe" ∧ ¬ "R-18" ∈ ts := by
  refine claim_C6_amended (fun _ => none) "pixiv" ["R-18", "foo"] none none "safe"
    (Or.inr (Or.inr rfl)) (by decide) ?_
  intro a ha hne
  have : a = "" := by
    have h0 : extract_artist ⟨"pixiv", some (PyTags.plist ["R-18", "foo"]), none, none, "safe"⟩
        = Except.ok "" := rfl
    rw [h0] at ha
    cases ha
    rfl
  exact absurd this hne
